import Mathlib

/-!
Shallow embedding of the e-commerce content-authoring tool: data model
(types module), the analysis-initialization and per-item generation state
transitions of the application component, and the generation client's
image preprocessing and video polling loops.
-/

namespace EComGen

/-- Semantic label of an uploaded reference image (types module). -/
inductive ImageLabel
  | main
  | detail
  | texture
  | usage
  | other
deriving DecidableEq

/-- An uploaded reference image (types module). -/
structure ReferenceImage where
  id : String
  base64 : String
  mimeType : String
  label : ImageLabel
deriving DecidableEq

/-- The user-supplied product input (types module). -/
structure ProductInput where
  referenceImages : List ReferenceImage
  name : String
  features : String
  targetAudience : String
deriving DecidableEq

/-- The eight fixed detail-page section types (types module). -/
inductive DouyinSectionType
  | header_impact
  | product_display
  | selling_point_fabe
  | scenario_usage
  | detail_craft
  | specs_size
  | trust_endorsement
  | promotion_cta
deriving DecidableEq

/-- The five fixed hero-image archetypes (types module). -/
inductive HeroImageType
  | front_80
  | side_cut
  | detail_zoom
  | scenario_life
  | trust_brand
deriving DecidableEq

/-- Per-item generation status (types module). -/
inductive GenStatus
  | pending
  | generating
  | completed
  | failed
deriving DecidableEq

/-- A hero-carousel entry as held in application state (types module);
optional TypeScript fields are embedded as `Option`. -/
structure HeroImage where
  id : String
  type : HeroImageType
  title : String
  imagePrompt : String
  referenceImageId : Option String
  generatedImageUrl : Option String
  status : GenStatus
  isEditing : Option Bool
  generatedVideoUrl : Option String
  videoStatus : Option GenStatus
  videoPrompt : Option String
  isVideoEditing : Option Bool
deriving DecidableEq

/-- A detail-page section as held in application state (types module). -/
structure GeneratedSection where
  id : String
  type : DouyinSectionType
  title : String
  content : String
  overlayText : Option String
  imagePrompt : String
  referenceImageId : Option String
  generatedImageUrl : Option String
  status : GenStatus
  isEditing : Option Bool
deriving DecidableEq

/-- The analysis plan as held in application state (types module). -/
structure AnalysisResult where
  refinedTitle : String
  refinedSellingPoints : List String
  priceEstimate : String
  marketingTone : String
  heroImages : List HeroImage
  sections : List GeneratedSection
deriving DecidableEq

/-- A hero entry as parsed from the analyze response; the response schema
requires exactly these fields (service module, hero item schema). -/
structure RemoteHero where
  id : String
  type : HeroImageType
  title : String
  imagePrompt : String
  referenceImageId : String
deriving DecidableEq

/-- A section entry as parsed from the analyze response; the response schema
requires exactly these fields (service module, section item schema). -/
structure RemoteSection where
  id : String
  type : DouyinSectionType
  title : String
  content : String
  overlayText : String
  imagePrompt : String
  referenceImageId : String
deriving DecidableEq

/-- The analyze response as parsed per the response schema (service module). -/
structure RemoteAnalysisResult where
  refinedTitle : String
  refinedSellingPoints : List String
  priceEstimate : String
  marketingTone : String
  heroImages : List RemoteHero
  sections : List RemoteSection
deriving DecidableEq

/-- The application's coarse processing phase (types module). -/
inductive ProcessingStep
  | Input
  | Analyzing
  | Planning
  | Preview
deriving DecidableEq

/-- The slice of application component state the claims are about:
current step, product input, analysis plan, global error banner,
and the settings-modal visibility flag. -/
structure AppState where
  step : ProcessingStep
  inputData : Option ProductInput
  analysis : Option AnalysisResult
  error : Option String
  showSettings : Bool
deriving DecidableEq

/-- Status initialization for one returned section: the two text-only
section types start completed, all others pending (app component,
section status mapping in the start handler). -/
def initSection (s : RemoteSection) : GeneratedSection :=
  { id := s.id
    type := s.type
    title := s.title
    content := s.content
    overlayText := some s.overlayText
    imagePrompt := s.imagePrompt
    referenceImageId := some s.referenceImageId
    generatedImageUrl := none
    status :=
      if s.type = DouyinSectionType.specs_size ∨
         s.type = DouyinSectionType.trust_endorsement then
        GenStatus.completed
      else
        GenStatus.pending
    isEditing := some false }

/-- Status initialization for one returned hero entry: image status and
video status both start pending (app component, hero status mapping in the
start handler). -/
def initHero (h : RemoteHero) : HeroImage :=
  { id := h.id
    type := h.type
    title := h.title
    imagePrompt := h.imagePrompt
    referenceImageId := some h.referenceImageId
    generatedImageUrl := none
    status := GenStatus.pending
    isEditing := some false
    generatedVideoUrl := none
    videoStatus := some GenStatus.pending
    videoPrompt := none
    isVideoEditing := none }

/-- The status-initialized plan installed by setAnalysis right after the
analyze call returns (app component, start handler). -/
def initAnalysis (r : RemoteAnalysisResult) : AnalysisResult :=
  { refinedTitle := r.refinedTitle
    refinedSellingPoints := r.refinedSellingPoints
    priceEstimate := r.priceEstimate
    marketingTone := r.marketingTone
    heroImages := r.heroImages.map initHero
    sections := r.sections.map initSection }

/-- The successful path of the start handler: the input is recorded, the
status-initialized plan is installed unconditionally, and the step moves to
Planning; no validation of the returned plan is performed (app component,
start handler). -/
def handleStartSuccess (st : AppState) (data : ProductInput)
    (result : RemoteAnalysisResult) : AppState :=
  { st with
    inputData := some data
    analysis := some (initAnalysis result)
    step := ProcessingStep.Planning
    error := none }

/-- Decides whether every reference-image link in a plan points at an
uploaded image; this predicate appears nowhere in the source, it formalises
the spec's invariant for comparison. -/
def planRefsValid (images : List ReferenceImage) (a : AnalysisResult) : Bool :=
  a.heroImages.all (fun h =>
    match h.referenceImageId with
    | none => true
    | some rid => images.any (fun i => i.id == rid)) &&
  a.sections.all (fun s =>
    match s.referenceImageId with
    | none => true
    | some rid => images.any (fun i => i.id == rid))

/-- Checks whether the second character list is a prefix of the first,
used to embed the message-includes test of the error handlers. -/
def startsWithL : List Char → List Char → Bool
  | _, [] => true
  | [], _ :: _ => false
  | c :: cs, d :: ds => c == d && startsWithL cs ds

/-- Checks whether `sub` occurs contiguously inside `l`. -/
def hasSubList (sub : List Char) : List Char → Bool
  | [] => sub.isEmpty
  | c :: cs => startsWithL (c :: cs) sub || hasSubList sub cs

/-- String containment, the semantics of the includes test on error
messages in the app component. -/
def containsSub (s sub : String) : Bool :=
  hasSubList sub.toList s.toList

/-- The app component's test for an authorization/permission failure: the
error message contains 403 or Permission Denied (app component, image and
video error handlers). -/
def isPermissionError (msg : String) : Bool :=
  containsSub msg ("403") || containsSub msg ("Permission Denied")

/-- The generic fallback error text used when a failure carries an empty
message (app component, image error handler). -/
def genericImageFailMsg : String :=
  "Image generation failed. Please try again."

/-- Reference-image selection for an image-generation request: the image
whose id equals the item's reference link, else the first image labeled
main, else the first uploaded image (app component, shared image
generation helper). -/
def selectReferenceImage (images : List ReferenceImage)
    (refId : Option String) : Option ReferenceImage :=
  match images.find? (fun img => refId == some img.id) with
  | some img => some img
  | none =>
    match images.find? (fun img => img.label == ImageLabel.main) with
    | some img => some img
    | none => images.head?

/-- The state updater passed for a section target: sets the section's
status and generated-image locator together (app component, section
generation handler). -/
def applySectionGenUpdate (a : AnalysisResult) (sid : String)
    (st : GenStatus) (url : Option String) : AnalysisResult :=
  { a with
    sections := a.sections.map (fun s =>
      if s.id == sid then { s with status := st, generatedImageUrl := url }
      else s) }

/-- The state updater passed for a hero target: sets the hero's image
status and generated-image locator together (app component, hero image
generation handler). -/
def applyHeroGenUpdate (a : AnalysisResult) (hid : String)
    (st : GenStatus) (url : Option String) : AnalysisResult :=
  { a with
    heroImages := a.heroImages.map (fun h =>
      if h.id == hid then { h with status := st, generatedImageUrl := url }
      else h) }

/-- The catch branch of the shared image-generation helper: a permission
failure sets the api-key error text and opens settings, any other failure
sets a generic error and leaves the settings flag alone (app component,
shared image generation helper). -/
def applyGenFailureError (st : AppState) (msg tKey : String) : AppState :=
  if isPermissionError msg then
    { st with error := some tKey, showSettings := true }
  else
    { st with
      error := some (if msg == ("") then genericImageFailMsg else msg) }

/-- The outcome of one remote image- or video-generation call, supplied as
an oracle to the orchestration flows. -/
inductive GenOutcome
  | success (url : String)
  | failure (msg : String)
deriving DecidableEq

/-- The section generation handler combined with the shared
image-generation helper, for a given remote outcome: bail out when the
plan, the section or the input is missing, otherwise transition the
section to generating with a cleared image locator, then apply the
outcome (app component, section generation handler). -/
def handleGenerateSectionFlow (st : AppState) (sid : String)
    (outcome : GenOutcome) (tKey : String) : AppState :=
  match st.analysis with
  | none => st
  | some a =>
    match a.sections.find? (fun s => s.id == sid) with
    | none => st
    | some sec =>
      match st.inputData with
      | none => st
      | some input =>
        let a1 := applySectionGenUpdate a sid GenStatus.generating none
        let st1 := { st with analysis := some a1 }
        match selectReferenceImage input.referenceImages sec.referenceImageId with
        | none =>
          applyGenFailureError
            { st1 with
              analysis := some (applySectionGenUpdate a1 sid GenStatus.failed none) }
            ("No reference image available") tKey
        | some _ =>
          match outcome with
          | GenOutcome.success url =>
            { st1 with
              analysis :=
                some (applySectionGenUpdate a1 sid GenStatus.completed (some url)) }
          | GenOutcome.failure msg =>
            applyGenFailureError
              { st1 with
                analysis := some (applySectionGenUpdate a1 sid GenStatus.failed none) }
              msg tKey

/-- The hero-image generation handler combined with the shared
image-generation helper, for a given remote outcome (app component, hero
image generation handler). -/
def handleGenerateHeroImageFlow (st : AppState) (hid : String)
    (outcome : GenOutcome) (tKey : String) : AppState :=
  match st.analysis with
  | none => st
  | some a =>
    match a.heroImages.find? (fun h => h.id == hid) with
    | none => st
    | some hero =>
      match st.inputData with
      | none => st
      | some input =>
        let a1 := applyHeroGenUpdate a hid GenStatus.generating none
        let st1 := { st with analysis := some a1 }
        match selectReferenceImage input.referenceImages hero.referenceImageId with
        | none =>
          applyGenFailureError
            { st1 with
              analysis := some (applyHeroGenUpdate a1 hid GenStatus.failed none) }
            ("No reference image available") tKey
        | some _ =>
          match outcome with
          | GenOutcome.success url =>
            { st1 with
              analysis :=
                some (applyHeroGenUpdate a1 hid GenStatus.completed (some url)) }
          | GenOutcome.failure msg =>
            applyGenFailureError
              { st1 with
                analysis := some (applyHeroGenUpdate a1 hid GenStatus.failed none) }
              msg tKey

/-- Sets only the video status of the hero with the given id (app
component, video generation handler). -/
def setHeroVideoStatus (a : AnalysisResult) (hid : String)
    (vs : GenStatus) : AnalysisResult :=
  { a with
    heroImages := a.heroImages.map (fun h =>
      if h.id == hid then { h with videoStatus := some vs } else h) }

/-- Sets the video status to completed together with the generated-video
locator of the hero with the given id (app component, video generation
handler, success branch). -/
def setHeroVideoCompleted (a : AnalysisResult) (hid : String)
    (url : String) : AnalysisResult :=
  { a with
    heroImages := a.heroImages.map (fun h =>
      if h.id == hid then
        { h with
          videoStatus := some GenStatus.completed
          generatedVideoUrl := some url }
      else h) }

/-- The video generation handler, for a given remote outcome; the Boolean
records whether a video call was issued. The gate bails out with the state
untouched when the plan or the hero is missing, or when the hero carries no
generated image (app component, video generation handler). -/
def handleGenerateHeroVideoFlow (st : AppState) (hid : String)
    (outcome : GenOutcome) : AppState × Bool :=
  match st.analysis with
  | none => (st, false)
  | some a =>
    match a.heroImages.find? (fun h => h.id == hid) with
    | none => (st, false)
    | some hero =>
      match hero.generatedImageUrl with
      | none => (st, false)
      | some _ =>
        let a1 := setHeroVideoStatus a hid GenStatus.generating
        let st1 := { st with analysis := some a1 }
        match outcome with
        | GenOutcome.success vurl =>
          ({ st1 with analysis := some (setHeroVideoCompleted a1 hid vurl) }, true)
        | GenOutcome.failure msg =>
          let st2 :=
            { st1 with error := some (("Video Generation Failed: ") ++ msg) }
          let st3 :=
            if isPermissionError msg then { st2 with showSettings := true }
            else st2
          ({ st3 with
             analysis := some (setHeroVideoStatus a1 hid GenStatus.failed) }, true)

/-- The section deletion handler: keeps exactly the sections whose id
differs from the deleted one (app component, delete handler). -/
def handleDeleteSection (a : AnalysisResult) (sid : String) : AnalysisResult :=
  { a with sections := a.sections.filter (fun s => s.id != sid) }

/-- A source image as seen by the compression helper: pixel dimensions and
MIME type of the upload, plus whether the browser image element can decode
it (the load failure path of the helper). -/
structure SourceImage where
  data : String
  mimeType : String
  width : Nat
  height : Nat
  loadOk : Bool
deriving DecidableEq

/-- The compression helper's output: re-encoded data, MIME type and the
dimensions drawn onto the canvas. -/
structure CompressResult where
  data : String
  mimeType : String
  width : Nat
  height : Nat
deriving DecidableEq

/-- Rounding of the rational num/den to the nearest natural, the semantics
of the rounding call in the compression helper (den positive). -/
def jsRound (num den : Nat) : Nat :=
  (2 * num + den) / (2 * den)

/-- Dimension scaling of the compression helper: when either dimension
exceeds 1024 the longest edge becomes 1024 and the other is scaled
proportionally with rounding (service module, compression helper). -/
def compressDims (w h : Nat) : Nat × Nat :=
  if w > 1024 ∨ h > 1024 then
    if w > h then (1024, jsRound (h * 1024) w)
    else (jsRound (w * 1024) h, 1024)
  else (w, h)

/-- The compression helper: on successful decode the image is drawn at the
scaled dimensions and exported as JPEG (the re-encoded bytes are abstracted
by the input data); on decode failure the original data and MIME type are
passed through unchanged (service module, compression helper, load and
error callbacks). -/
def compressImage (img : SourceImage) : CompressResult :=
  if img.loadOk then
    let d := compressDims img.width img.height
    { data := img.data
      mimeType := "image/jpeg"
      width := d.1
      height := d.2 }
  else
    { data := img.data
      mimeType := img.mimeType
      width := img.width
      height := img.height }

/-- One response of the grok task-status endpoint: whether the HTTP call
succeeded, the reported task status, the video locator when present, and
the reported error text (service module, grok video implementation). -/
structure GrokStatusResponse where
  httpOk : Bool
  status : String
  video_url : Option String
  errMsg : String
deriving DecidableEq

/-- A poll response is terminal when the call succeeded and the task is
either completed with a video locator or failed (service module, grok
polling loop branch conditions). -/
def grokIsTerminal (r : GrokStatusResponse) : Bool :=
  r.httpOk &&
    ((r.status == ("completed") && r.video_url.isSome) ||
      r.status == ("failed"))

/-- The grok polling loop over an oracle of status responses indexed by
attempt: returns the video locator on completed-with-locator, an error on
failed, and a timeout error when the attempt budget runs out; the second
component counts the status polls performed (service module, grok video
implementation). -/
def grokPollAux (resp : Nat → GrokStatusResponse) :
    Nat → Nat → Except String String × Nat
  | _, 0 => (Except.error ("Video generation timed out"), 0)
  | i, r + 1 =>
    let s := resp i
    if s.httpOk then
      if s.status == ("completed") then
        match s.video_url with
        | some url => (Except.ok url, 1)
        | none =>
          let p := grokPollAux resp (i + 1) r
          (p.1, p.2 + 1)
      else if s.status == ("failed") then
        (Except.error (("Grok Task Failed: ") ++ s.errMsg), 1)
      else
        let p := grokPollAux resp (i + 1) r
        (p.1, p.2 + 1)
    else
      let p := grokPollAux resp (i + 1) r
      (p.1, p.2 + 1)

/-- The attempt ceiling of the grok polling loop (service module). -/
def grokMaxAttempts : Nat := 60

/-- The polling phase of the grok video generation call, started at
attempt zero with the fixed attempt ceiling (service module, grok video
implementation). -/
def generateGrokVideoPoll (resp : Nat → GrokStatusResponse) :
    Except String String × Nat :=
  grokPollAux resp 0 grokMaxAttempts

/-- Sample uploaded image labeled main. -/
def imgMainW : ReferenceImage :=
  { id := "img-main", base64 := "AAA", mimeType := "image/png"
    label := ImageLabel.main }

/-- Sample uploaded image labeled detail. -/
def imgDetailW : ReferenceImage :=
  { id := "img-detail", base64 := "BBB", mimeType := "image/png"
    label := ImageLabel.detail }

/-- Sample product input with two uploaded images. -/
def inputW : ProductInput :=
  { referenceImages := [imgMainW, imgDetailW], name := "Thermal Mug"
    features := "keeps drinks hot", targetAudience := "" }

/-- Sample returned hero entry referencing an uploaded image. -/
def remoteHeroW : RemoteHero :=
  { id := "h1", type := HeroImageType.front_80, title := "Front"
    imagePrompt := "front view", referenceImageId := "img-main" }

/-- Sample returned hero entry referencing an id that matches no uploaded
image. -/
def remoteHeroGhostW : RemoteHero :=
  { id := "h1", type := HeroImageType.front_80, title := "Front"
    imagePrompt := "front view", referenceImageId := "ghost" }

/-- Sample returned text-only section of type specs_size. -/
def remoteSecSpecsW : RemoteSection :=
  { id := "s6", type := DouyinSectionType.specs_size, title := "Specs"
    content := "copy", overlayText := "chart", imagePrompt := "table"
    referenceImageId := "img-main" }

/-- Sample returned section of type header_impact. -/
def remoteSecHeaderW : RemoteSection :=
  { id := "s1", type := DouyinSectionType.header_impact, title := "Header"
    content := "copy", overlayText := "sale", imagePrompt := "banner"
    referenceImageId := "img-main" }

/-- Sample analyze response with one hero and two sections. -/
def remoteResultW : RemoteAnalysisResult :=
  { refinedTitle := "Mug", refinedSellingPoints := ["hot"]
    priceEstimate := "9.9", marketingTone := "warm"
    heroImages := [remoteHeroW], sections := [remoteSecHeaderW, remoteSecSpecsW] }

/-- Sample analyze response whose hero references a nonexistent image id. -/
def remoteResultGhostW : RemoteAnalysisResult :=
  { refinedTitle := "Mug", refinedSellingPoints := ["hot"]
    priceEstimate := "9.9", marketingTone := "warm"
    heroImages := [remoteHeroGhostW], sections := [] }

/-- Sample initial application state. -/
def st0 : AppState :=
  { step := ProcessingStep.Input, inputData := none, analysis := none
    error := none, showSettings := false }

/-- Sample freshly initialized hero (image pending, no generated image). -/
def heroPendingW : HeroImage := initHero remoteHeroW

/-- Sample freshly initialized section. -/
def secW : GeneratedSection := initSection remoteSecHeaderW

/-- Sample hero with a completed image, a completed video and stored
locators. -/
def heroDoneW : HeroImage :=
  { initHero remoteHeroW with
    status := GenStatus.completed
    generatedImageUrl := some ("data:image/png;base64,XYZ")
    generatedVideoUrl := some ("blob:earlier-video")
    videoStatus := some GenStatus.completed }

/-- Sample section with a previously completed image. -/
def secDoneW : GeneratedSection :=
  { initSection remoteSecHeaderW with
    status := GenStatus.completed
    generatedImageUrl := some ("data:image/png;base64,OLD") }

/-- Sample plan holding the pending hero and the fresh section. -/
def analysisW : AnalysisResult :=
  { refinedTitle := "Mug", refinedSellingPoints := []
    priceEstimate := "9.9", marketingTone := "warm"
    heroImages := [heroPendingW], sections := [secW] }

/-- Sample plan holding the completed hero and the completed section. -/
def analysisDoneW : AnalysisResult :=
  { analysisW with heroImages := [heroDoneW], sections := [secDoneW] }

/-- Sample planning-phase state over the fresh plan. -/
def stPlanW : AppState :=
  { step := ProcessingStep.Planning, inputData := some inputW
    analysis := some analysisW, error := none, showSettings := false }

/-- Sample planning-phase state over the completed plan. -/
def stDoneW : AppState :=
  { stPlanW with analysis := some analysisDoneW }

/-! Helper lemmas shared by the claim theorems. -/

/-- A section stateUpdater call sets exactly the requested status and
image locator on every section matching the target id. -/
theorem applySectionGenUpdate_target (a : AnalysisResult) (sid : String)
    (stt : GenStatus) (url : Option String) :
    ∀ s ∈ (applySectionGenUpdate a sid stt url).sections, s.id == sid →
      s.status = stt ∧ s.generatedImageUrl = url := by
  intro s hs hsid
  simp only [applySectionGenUpdate, List.mem_map] at hs
  obtain ⟨t, ht, rfl⟩ := hs
  by_cases hc : (t.id == sid) = true
  · rw [if_pos hc]
    exact ⟨rfl, rfl⟩
  · rw [if_neg hc] at hsid
    exact absurd hsid hc

/-- A hero stateUpdater call sets exactly the requested status and image
locator on every hero matching the target id. -/
theorem applyHeroGenUpdate_target (a : AnalysisResult) (hid : String)
    (stt : GenStatus) (url : Option String) :
    ∀ h ∈ (applyHeroGenUpdate a hid stt url).heroImages, h.id == hid →
      h.status = stt ∧ h.generatedImageUrl = url := by
  intro h hh hhid
  simp only [applyHeroGenUpdate, List.mem_map] at hh
  obtain ⟨t, ht, rfl⟩ := hh
  by_cases hc : (t.id == hid) = true
  · rw [if_pos hc]
    exact ⟨rfl, rfl⟩
  · rw [if_neg hc] at hhid
    exact absurd hhid hc

/-- The failure handler never touches the stored plan. -/
theorem applyGenFailureError_analysis (s : AppState) (m k : String) :
    (applyGenFailureError s m k).analysis = s.analysis := by
  simp only [applyGenFailureError]
  split <;> rfl

/-- On a permission failure the handler installs the api-key error text
and opens the settings modal. -/
theorem applyGenFailureError_perm (s : AppState) (m k : String)
    (h : isPermissionError m = true) :
    (applyGenFailureError s m k).error = some k ∧
      (applyGenFailureError s m k).showSettings = true := by
  simp [applyGenFailureError, h]

/-- On any other failure the handler installs the failure message (or the
generic fallback) and leaves the settings flag alone. -/
theorem applyGenFailureError_generic (s : AppState) (m k : String)
    (h : isPermissionError m = false) :
    (applyGenFailureError s m k).error =
        some (if m == ("") then genericImageFailMsg else m) ∧
      (applyGenFailureError s m k).showSettings = s.showSettings := by
  simp [applyGenFailureError, h]

/-- A freshly initialized hero carries no generated image, so it satisfies
the image-presence invariant. -/
theorem initHero_url_inv (rh : RemoteHero) :
    (initHero rh).status ≠ GenStatus.completed →
      (initHero rh).generatedImageUrl = none :=
  fun _ => rfl

/-- The hero image stateUpdater preserves the image-presence invariant
whenever it writes a locator only together with completed status, which is
how both generation handlers invoke it. -/
theorem applyHeroGenUpdate_url_inv (a : AnalysisResult) (hid : String)
    (stt : GenStatus) (url : Option String)
    (hshape : stt = GenStatus.completed ∨ url = none)
    (hall : ∀ h ∈ a.heroImages,
      h.status ≠ GenStatus.completed → h.generatedImageUrl = none) :
    ∀ h ∈ (applyHeroGenUpdate a hid stt url).heroImages,
      h.status ≠ GenStatus.completed → h.generatedImageUrl = none := by
  intro h hh
  simp only [applyHeroGenUpdate, List.mem_map] at hh
  obtain ⟨t, ht, rfl⟩ := hh
  by_cases hc : (t.id == hid) = true
  · rw [if_pos hc]
    intro hst
    rcases hshape with h1 | h1
    · exact absurd h1 hst
    · exact h1
  · rw [if_neg hc]
    exact hall t ht

/-- The video-status updates leave image status and image locator alone,
so they preserve the image-presence invariant as well. -/
theorem setHeroVideoStatus_url_inv (a : AnalysisResult) (hid : String)
    (vs : GenStatus)
    (hall : ∀ h ∈ a.heroImages,
      h.status ≠ GenStatus.completed → h.generatedImageUrl = none) :
    ∀ h ∈ (setHeroVideoStatus a hid vs).heroImages,
      h.status ≠ GenStatus.completed → h.generatedImageUrl = none := by
  intro h hh
  simp only [setHeroVideoStatus, List.mem_map] at hh
  obtain ⟨t, ht, rfl⟩ := hh
  by_cases hc : (t.id == hid) = true
  · rw [if_pos hc]
    exact hall t ht
  · rw [if_neg hc]
    exact hall t ht

/-- Writing the video status twice in a row keeps only the second write. -/
theorem setHeroVideoStatus_twice (a : AnalysisResult) (hid : String)
    (v1 v2 : GenStatus) :
    setHeroVideoStatus (setHeroVideoStatus a hid v1) hid v2 =
      setHeroVideoStatus a hid v2 := by
  simp only [setHeroVideoStatus]
  rw [List.map_map]
  have hfe : ((fun h : HeroImage =>
        if h.id == hid then { h with videoStatus := some v2 } else h) ∘
      (fun h : HeroImage =>
        if h.id == hid then { h with videoStatus := some v1 } else h)) =
      (fun h : HeroImage =>
        if h.id == hid then { h with videoStatus := some v2 } else h) := by
    funext h
    by_cases hc : h.id = hid <;> simp [hc]
  rw [hfe]

/-! Claim theorems. -/

/-- C4: when setAnalysis installs a newly returned plan, every section of
type specs_size or trust_endorsement has status completed, every other
section has status pending, and every hero image has image status pending
and video status pending. -/
theorem c4_init_statuses (r : RemoteAnalysisResult) :
    (∀ s ∈ (initAnalysis r).sections,
        ((s.type = DouyinSectionType.specs_size ∨
            s.type = DouyinSectionType.trust_endorsement) →
          s.status = GenStatus.completed) ∧
        (¬(s.type = DouyinSectionType.specs_size ∨
            s.type = DouyinSectionType.trust_endorsement) →
          s.status = GenStatus.pending)) ∧
    (∀ h ∈ (initAnalysis r).heroImages,
        h.status = GenStatus.pending ∧
        h.videoStatus = some GenStatus.pending) := by
  constructor
  · intro s hs
    obtain ⟨t, -, rfl⟩ := List.mem_map.mp hs
    by_cases hc : t.type = DouyinSectionType.specs_size ∨
        t.type = DouyinSectionType.trust_endorsement
    · refine ⟨fun _ => ?_, fun hn => absurd hc hn⟩
      simp only [initSection]
      rw [if_pos hc]
    · refine ⟨fun hy => absurd hy hc, fun _ => ?_⟩
      simp only [initSection]
      rw [if_neg hc]
  · intro h hh
    obtain ⟨t, -, rfl⟩ := List.mem_map.mp hh
    exact ⟨rfl, rfl⟩

/-- C4 witness: on the sample analyze response, the specs_size section is
installed completed and the hero entry pending. -/
theorem c4_witness :
    initSection remoteSecSpecsW ∈ (initAnalysis remoteResultW).sections ∧
    (initSection remoteSecSpecsW).status = GenStatus.completed ∧
    initHero remoteHeroW ∈ (initAnalysis remoteResultW).heroImages ∧
    (initHero remoteHeroW).status = GenStatus.pending ∧
    (initHero remoteHeroW).videoStatus = some GenStatus.pending := by
  have h := c4_init_statuses remoteResultW
  have hmem : initSection remoteSecSpecsW ∈ (initAnalysis remoteResultW).sections := by
    decide
  have hmemh : initHero remoteHeroW ∈ (initAnalysis remoteResultW).heroImages := by
    decide
  exact ⟨hmem, (h.1 _ hmem).1 (Or.inl rfl), hmemh,
    (h.2 _ hmemh).1, (h.2 _ hmemh).2⟩

/-- C5: the reference image for a generation request is chosen by the
exact tie-break order explicit reference, then first main-labeled image,
then first uploaded image, and selection fails exactly when the uploaded
list is empty. -/
theorem c5_reference_tiebreak (images : List ReferenceImage)
    (refId : Option String) :
    (∀ img, images.find? (fun i => refId == some i.id) = some img →
        selectReferenceImage images refId = some img) ∧
    (images.find? (fun i => refId == some i.id) = none →
      (∀ img, images.find? (fun i => i.label == ImageLabel.main) = some img →
          selectReferenceImage images refId = some img) ∧
      (images.find? (fun i => i.label == ImageLabel.main) = none →
        selectReferenceImage images refId = images.head?)) ∧
    (selectReferenceImage images refId = none ↔ images = []) := by
  refine ⟨?_, ?_, ?_, ?_⟩
  · intro img hf
    simp [selectReferenceImage, hf]
  · intro hf
    constructor
    · intro img hm
      simp [selectReferenceImage, hf, hm]
    · intro hm
      simp [selectReferenceImage, hf, hm]
  · intro hnone
    cases himgs : images with
    | nil => rfl
    | cons x xs =>
      exfalso
      rw [himgs] at hnone
      simp only [selectReferenceImage] at hnone
      rcases hf1 : List.find? (fun i => refId == some i.id) (x :: xs) with - | img
      · rw [hf1] at hnone
        rcases hf2 : List.find? (fun i => i.label == ImageLabel.main) (x :: xs) with - | img
        · rw [hf2] at hnone
          exact Option.noConfusion hnone
        · rw [hf2] at hnone
          exact Option.noConfusion hnone
      · rw [hf1] at hnone
        exact Option.noConfusion hnone
  · intro h
    subst h
    rfl

/-- C5 witness: with no explicit reference on the sample section, the
main-labeled sample image is selected, and selection on the empty list
fails. -/
theorem c5_witness :
    selectReferenceImage inputW.referenceImages (some ("ghost")) = some imgMainW ∧
    selectReferenceImage [] none = none := by
  have h := c5_reference_tiebreak inputW.referenceImages (some ("ghost"))
  have h2 := c5_reference_tiebreak [] none
  refine ⟨(h.2.1 (by decide)).1 imgMainW (by decide), h2.2.2.mpr rfl⟩

/-- C1 counterexample: a returned plan whose hero references the id ghost,
which matches no uploaded image, is neither rejected nor flagged: the start
handler stores it, moves to Planning and clears the error banner, with the
dangling reference still present. -/
theorem c1_counterexample :
    (handleStartSuccess st0 inputW remoteResultGhostW).analysis =
      some (initAnalysis remoteResultGhostW) ∧
    (handleStartSuccess st0 inputW remoteResultGhostW).step =
      ProcessingStep.Planning ∧
    (handleStartSuccess st0 inputW remoteResultGhostW).error = none ∧
    planRefsValid inputW.referenceImages (initAnalysis remoteResultGhostW) =
      false := by
  refine ⟨rfl, rfl, rfl, ?_⟩
  decide

/-- C1 amended: the analyze step performs no reference-id validation; the
start handler stores every returned plan unchanged apart from status
initialization, with all referenceImageIds preserved verbatim, whether or
not they match an uploaded image. -/
theorem c1_plan_stored_without_validation (st : AppState)
    (data : ProductInput) (r : RemoteAnalysisResult) :
    (handleStartSuccess st data r).analysis = some (initAnalysis r) ∧
    (handleStartSuccess st data r).step = ProcessingStep.Planning ∧
    (initAnalysis r).heroImages.map (fun h => h.referenceImageId) =
      r.heroImages.map (fun h => some h.referenceImageId) ∧
    (initAnalysis r).sections.map (fun s => s.referenceImageId) =
      r.sections.map (fun s => some s.referenceImageId) := by
  refine ⟨rfl, rfl, ?_, ?_⟩
  · show (r.heroImages.map initHero).map (fun h => h.referenceImageId) = _
    rw [List.map_map]
    rfl
  · show (r.sections.map initSection).map (fun s => s.referenceImageId) = _
    rw [List.map_map]
    rfl

/-- C8: deleting a section removes exactly the section with that id,
leaves every other section and all hero images and plan metadata
unchanged, and deleting a nonexistent id is a no-op. -/
theorem c8_delete_section (a : AnalysisResult) (sid : String) :
    (handleDeleteSection a sid).heroImages = a.heroImages ∧
    (handleDeleteSection a sid).refinedTitle = a.refinedTitle ∧
    (handleDeleteSection a sid).refinedSellingPoints = a.refinedSellingPoints ∧
    (handleDeleteSection a sid).priceEstimate = a.priceEstimate ∧
    (handleDeleteSection a sid).marketingTone = a.marketingTone ∧
    (∀ l1 s l2, a.sections = l1 ++ s :: l2 → s.id = sid →
      (∀ t ∈ l1, t.id ≠ sid) → (∀ t ∈ l2, t.id ≠ sid) →
      (handleDeleteSection a sid).sections = l1 ++ l2) ∧
    ((∀ s ∈ a.sections, s.id ≠ sid) → handleDeleteSection a sid = a) := by
  refine ⟨rfl, rfl, rfl, rfl, rfl, ?_, ?_⟩
  · intro l1 s l2 hsplit hs h1 h2
    show a.sections.filter (fun t => t.id != sid) = l1 ++ l2
    rw [hsplit, List.filter_append, List.filter_cons]
    have hps : (s.id != sid) = false := by
      simp [hs]
    rw [hps]
    simp only [Bool.false_eq_true, if_false]
    have hf1 : l1.filter (fun t => t.id != sid) = l1 := by
      rw [List.filter_eq_self]
      intro t ht
      simpa using h1 t ht
    have hf2 : l2.filter (fun t => t.id != sid) = l2 := by
      rw [List.filter_eq_self]
      intro t ht
      simpa using h2 t ht
    rw [hf1, hf2]
  · intro hall
    have hfil : a.sections.filter (fun t => t.id != sid) = a.sections := by
      rw [List.filter_eq_self]
      intro t ht
      simpa using hall t ht
    show ({ a with sections := a.sections.filter (fun t => t.id != sid) } :
        AnalysisResult) = a
    rw [hfil]

/-- C8 witness: on the sample plan, deleting the only section empties the
list while keeping the hero images, and deleting an absent id changes
nothing. -/
theorem c8_witness :
    (handleDeleteSection analysisW ("s1")).sections = [] ∧
    (handleDeleteSection analysisW ("s1")).heroImages = analysisW.heroImages ∧
    handleDeleteSection analysisW ("zzz") = analysisW := by
  have h := c8_delete_section analysisW ("s1")
  have h2 := c8_delete_section analysisW ("zzz")
  refine ⟨?_, h.1, h2.2.2.2.2.2.2 (by decide)⟩
  have := h.2.2.2.2.2.1 [] secW [] rfl rfl (by intro t ht; cases ht)
    (by intro t ht; cases ht)
  simpa using this

/-- C2: requesting video generation for a hero image whose image status is
not completed is rejected under the image-presence invariant (no generated
image is stored while the status is not completed, which initialization
establishes and the generation updates preserve): no video call is issued
and the whole application state, the hero's videoStatus and
generatedVideoUrl included, is unchanged. -/
theorem c2_video_gating (st : AppState) (a : AnalysisResult) (hid : String)
    (hero : HeroImage) (outcome : GenOutcome)
    (hA : st.analysis = some a)
    (hF : a.heroImages.find? (fun h => h.id == hid) = some hero)
    (hInv : hero.status ≠ GenStatus.completed → hero.generatedImageUrl = none)
    (hS : hero.status ≠ GenStatus.completed) :
    handleGenerateHeroVideoFlow st hid outcome = (st, false) := by
  have hurl := hInv hS
  simp only [handleGenerateHeroVideoFlow, hA, hF, hurl]

/-- C2 witness: requesting a video on the sample pending hero is a
rejected no-op. -/
theorem c2_witness :
    handleGenerateHeroVideoFlow stPlanW ("h1") (GenOutcome.success ("v")) =
      (stPlanW, false) ∧
    heroPendingW.status ≠ GenStatus.completed := by
  refine ⟨?_, by decide⟩
  exact c2_video_gating stPlanW analysisW ("h1") heroPendingW
    (GenOutcome.success ("v")) rfl (by decide) (fun _ => rfl) (by decide)

/-- C3: when an image-generation request for a section fails, the section's
status becomes failed; a failure whose message indicates a permission
problem additionally installs the api-key error text and raises the
settings prompt, while any other failure installs the failure message (or
the generic fallback) and leaves the settings flag unchanged. -/
theorem c3_failure_error_routing (st : AppState) (a : AnalysisResult)
    (sid : String) (sec : GeneratedSection) (input : ProductInput)
    (refImg : ReferenceImage) (msg tKey : String)
    (hA : st.analysis = some a)
    (hF : a.sections.find? (fun s => s.id == sid) = some sec)
    (hI : st.inputData = some input)
    (hR : selectReferenceImage input.referenceImages sec.referenceImageId =
      some refImg) :
    (∃ a2, (handleGenerateSectionFlow st sid (GenOutcome.failure msg) tKey).analysis =
        some a2 ∧
      ∀ s ∈ a2.sections, s.id == sid → s.status = GenStatus.failed) ∧
    (isPermissionError msg = true →
      (handleGenerateSectionFlow st sid (GenOutcome.failure msg) tKey).error =
          some tKey ∧
      (handleGenerateSectionFlow st sid (GenOutcome.failure msg) tKey).showSettings =
          true) ∧
    (isPermissionError msg = false →
      (handleGenerateSectionFlow st sid (GenOutcome.failure msg) tKey).error =
          some (if msg == ("") then genericImageFailMsg else msg) ∧
      (handleGenerateSectionFlow st sid (GenOutcome.failure msg) tKey).showSettings =
          st.showSettings) := by
  have hflow : handleGenerateSectionFlow st sid (GenOutcome.failure msg) tKey =
      applyGenFailureError
        { st with
          analysis := some (applySectionGenUpdate
            (applySectionGenUpdate a sid GenStatus.generating none)
            sid GenStatus.failed none) }
        msg tKey := by
    simp only [handleGenerateSectionFlow, hA, hF, hI, hR]
  refine ⟨⟨applySectionGenUpdate
      (applySectionGenUpdate a sid GenStatus.generating none)
      sid GenStatus.failed none, ?_, ?_⟩, ?_, ?_⟩
  · rw [hflow, applyGenFailureError_analysis]
  · intro s hs hsid
    exact (applySectionGenUpdate_target _ sid GenStatus.failed none s hs hsid).1
  · intro hp
    rw [hflow]
    exact applyGenFailureError_perm _ msg tKey hp
  · intro hp
    rw [hflow]
    exact applyGenFailureError_generic _ msg tKey hp

/-- C3 witness: a 403 failure on the sample section marks it failed, sets
the api-key error text and opens settings. -/
theorem c3_witness :
    (handleGenerateSectionFlow stPlanW ("s1")
        (GenOutcome.failure ("Permission Denied (403).")) ("keyErr")).error =
      some ("keyErr") ∧
    (handleGenerateSectionFlow stPlanW ("s1")
        (GenOutcome.failure ("Permission Denied (403).")) ("keyErr")).showSettings =
      true := by
  have h := c3_failure_error_routing stPlanW analysisW ("s1") secW inputW
    imgMainW ("Permission Denied (403).") ("keyErr") rfl (by decide) rfl
    (by decide)
  exact h.2.1 (by decide)

/-- C9: triggering image generation for a section or hero image clears its
generated-image locator when the status moves to generating, and a failed
request leaves the locator cleared: a failed regeneration discards the
previously generated image. -/
theorem c9_regen_discards_image (st : AppState) (a : AnalysisResult)
    (sid : String) (sec : GeneratedSection) (hid : String)
    (hero : HeroImage) (input : ProductInput) (msg tKey : String)
    (hA : st.analysis = some a)
    (hFs : a.sections.find? (fun s => s.id == sid) = some sec)
    (hFh : a.heroImages.find? (fun h => h.id == hid) = some hero)
    (hI : st.inputData = some input) :
    (∀ s ∈ (applySectionGenUpdate a sid GenStatus.generating none).sections,
        s.id == sid →
          s.status = GenStatus.generating ∧ s.generatedImageUrl = none) ∧
    (∀ h ∈ (applyHeroGenUpdate a hid GenStatus.generating none).heroImages,
        h.id == hid →
          h.status = GenStatus.generating ∧ h.generatedImageUrl = none) ∧
    (∃ a2, (handleGenerateSectionFlow st sid (GenOutcome.failure msg) tKey).analysis =
        some a2 ∧
      ∀ s ∈ a2.sections, s.id == sid →
        s.status = GenStatus.failed ∧ s.generatedImageUrl = none) ∧
    (∃ a2, (handleGenerateHeroImageFlow st hid (GenOutcome.failure msg) tKey).analysis =
        some a2 ∧
      ∀ h ∈ a2.heroImages, h.id == hid →
        h.status = GenStatus.failed ∧ h.generatedImageUrl = none) := by
  refine ⟨applySectionGenUpdate_target a sid GenStatus.generating none,
    applyHeroGenUpdate_target a hid GenStatus.generating none, ?_, ?_⟩
  · refine ⟨applySectionGenUpdate
      (applySectionGenUpdate a sid GenStatus.generating none)
      sid GenStatus.failed none, ?_,
      applySectionGenUpdate_target _ sid GenStatus.failed none⟩
    rcases hsel : selectReferenceImage input.referenceImages sec.referenceImageId
        with - | refImg <;>
      simp only [handleGenerateSectionFlow, hA, hFs, hI, hsel,
        applyGenFailureError_analysis]
  · refine ⟨applyHeroGenUpdate
      (applyHeroGenUpdate a hid GenStatus.generating none)
      hid GenStatus.failed none, ?_,
      applyHeroGenUpdate_target _ hid GenStatus.failed none⟩
    rcases hsel : selectReferenceImage input.referenceImages hero.referenceImageId
        with - | refImg <;>
      simp only [handleGenerateHeroImageFlow, hA, hFh, hI, hsel,
        applyGenFailureError_analysis]

/-- C9 witness: a failed regeneration of the sample completed section,
which held a generated image, ends failed with no stored image. -/
theorem c9_witness :
    (∃ a2, (handleGenerateSectionFlow stDoneW ("s1")
        (GenOutcome.failure ("boom")) ("keyText")).analysis = some a2 ∧
      ∀ s ∈ a2.sections, s.id == ("s1") →
        s.status = GenStatus.failed ∧ s.generatedImageUrl = none) ∧
    secDoneW.generatedImageUrl = some ("data:image/png;base64,OLD") := by
  have h := c9_regen_discards_image stDoneW analysisDoneW ("s1") secDoneW
    ("h1") heroDoneW inputW ("boom") ("keyText") rfl (by decide) (by decide)
    rfl
  exact ⟨h.2.2.1, rfl⟩

/-- C10: when video generation for a hero fails, only that hero's
videoStatus becomes failed; its stored video locator, image status and
image locator, every other hero and every section are unchanged. -/
theorem c10_video_failure_frame (st : AppState) (a : AnalysisResult)
    (hid : String) (hero : HeroImage) (u msg : String)
    (hA : st.analysis = some a)
    (hF : a.heroImages.find? (fun h => h.id == hid) = some hero)
    (hU : hero.generatedImageUrl = some u) :
    ∃ a2,
      (handleGenerateHeroVideoFlow st hid (GenOutcome.failure msg)).1.analysis =
        some a2 ∧
      a2.sections = a.sections ∧
      a2.refinedTitle = a.refinedTitle ∧
      a2.heroImages = a.heroImages.map (fun h =>
        if h.id == hid then { h with videoStatus := some GenStatus.failed }
        else h) ∧
      (∀ h : HeroImage,
        ({ h with videoStatus := some GenStatus.failed } :
            HeroImage).generatedVideoUrl = h.generatedVideoUrl ∧
        ({ h with videoStatus := some GenStatus.failed } :
            HeroImage).status = h.status ∧
        ({ h with videoStatus := some GenStatus.failed } :
            HeroImage).generatedImageUrl = h.generatedImageUrl) := by
  refine ⟨setHeroVideoStatus a hid GenStatus.failed, ?_, rfl, rfl, rfl,
    fun h => ⟨rfl, rfl, rfl⟩⟩
  have hcollapse := setHeroVideoStatus_twice a hid GenStatus.generating
    GenStatus.failed
  simp only [handleGenerateHeroVideoFlow, hA, hF, hU]
  rw [hcollapse]

/-- C10 witness: a failed video request on the sample completed hero keeps
its earlier video locator and flips only videoStatus to failed. -/
theorem c10_witness :
    (∃ a2, (handleGenerateHeroVideoFlow stDoneW ("h1")
        (GenOutcome.failure ("boom"))).1.analysis = some a2 ∧
      a2.heroImages =
        [{ heroDoneW with videoStatus := some GenStatus.failed }] ∧
      a2.sections = analysisDoneW.sections) ∧
    heroDoneW.generatedVideoUrl = some ("blob:earlier-video") := by
  have h := c10_video_failure_frame stDoneW analysisDoneW ("h1") heroDoneW
    ("data:image/png;base64,XYZ") ("boom") rfl (by decide) rfl
  obtain ⟨a2, h1, h2, h3, h4, h5⟩ := h
  refine ⟨⟨a2, h1, ?_, h2⟩, rfl⟩
  rw [h4]
  decide

/-- Scaling the smaller dimension of an oversized image never exceeds the
bound: rounding small times 1024 over big stays at most 1024 when small is
at most big and big is positive. -/
theorem jsRound_scale_le (small big : Nat) (hle : small ≤ big)
    (hpos : 0 < big) : jsRound (small * 1024) big ≤ 1024 := by
  unfold jsRound
  rw [Nat.div_le_iff_le_mul_add_pred (by omega)]
  omega

/-- C6 counterexample: an upload the browser fails to decode is passed
through with its original MIME type and dimensions, so the preprocessing
output is neither JPEG nor bounded by 1024 for such an input. -/
theorem c6_counterexample :
    (compressImage
        { data := "RAW", mimeType := "image/tiff", width := 4096
          height := 2048, loadOk := false }).mimeType = ("image/tiff") ∧
    ¬ max (compressImage
        { data := "RAW", mimeType := "image/tiff", width := 4096
          height := 2048, loadOk := false }).width
      (compressImage
        { data := "RAW", mimeType := "image/tiff", width := 4096
          height := 2048, loadOk := false }).height ≤ 1024 := by
  exact ⟨rfl, by decide⟩

/-- C6 amended: whenever the browser decodes the reference image, the
preprocessing step bounds the longest edge by 1024 pixels and normalizes
the MIME type to image/jpeg; on decode failure the original data and MIME
type are passed through unchanged. -/
theorem c6_compress_bounds (img : SourceImage) (hload : img.loadOk = true) :
    max (compressImage img).width (compressImage img).height ≤ 1024 ∧
    (compressImage img).mimeType = ("image/jpeg") := by
  simp only [compressImage, hload, if_true]
  refine ⟨?_, by trivial⟩
  simp only [compressDims]
  by_cases hbig : img.width > 1024 ∨ img.height > 1024
  · rw [if_pos hbig]
    by_cases hwh : img.width > img.height
    · rw [if_pos hwh]
      have hb : jsRound (img.height * 1024) img.width ≤ 1024 :=
        jsRound_scale_le img.height img.width (by omega) (by omega)
      simp only [max_le_iff]
      exact ⟨le_refl 1024, hb⟩
    · rw [if_neg hwh]
      have hb : jsRound (img.width * 1024) img.height ≤ 1024 :=
        jsRound_scale_le img.width img.height (by omega) (by omega)
      simp only [max_le_iff]
      exact ⟨hb, le_refl 1024⟩
  · rw [if_neg hbig]
    simp only [max_le_iff]
    omega

/-- C6 witness: a decodable 4096 by 2048 upload is scaled within the bound
and exported as JPEG. -/
theorem c6_witness :
    max (compressImage
        { data := "RAW", mimeType := "image/png", width := 4096
          height := 2048, loadOk := true }).width
      (compressImage
        { data := "RAW", mimeType := "image/png", width := 4096
          height := 2048, loadOk := true }).height ≤ 1024 ∧
    (compressImage
        { data := "RAW", mimeType := "image/png", width := 4096
          height := 2048, loadOk := true }).mimeType = ("image/jpeg") :=
  c6_compress_bounds
    { data := "RAW", mimeType := "image/png", width := 4096
      height := 2048, loadOk := true } rfl

/-- The grok polling loop performs at most as many status polls as it has
attempts left. -/
theorem grokPollAux_count_le (resp : Nat → GrokStatusResponse) :
    ∀ f i, (grokPollAux resp i f).2 ≤ f := by
  intro f
  induction f with
  | zero => intro i; exact Nat.le_refl 0
  | succ r ih =>
    intro i
    have hih := ih (i + 1)
    by_cases h1 : (resp i).httpOk = true
    · by_cases h2 : ((resp i).status == ("completed")) = true
      · cases h3 : (resp i).video_url with
        | some url =>
          simp only [grokPollAux, h1, h2, h3, if_true]
          omega
        | none =>
          simp only [grokPollAux, h1, h2, h3, if_true]
          omega
      · by_cases h3 : ((resp i).status == ("failed")) = true
        · simp only [grokPollAux, h1, h2, h3, if_true, if_false,
            Bool.not_eq_true]
          simp [h2, h3]
        · simp only [grokPollAux, h1, h2, h3]
          simp only [Bool.not_eq_true] at h2 h3
          simp [h2, h3]
          omega
    · simp only [grokPollAux]
      simp only [Bool.not_eq_true] at h1
      simp [h1]
      omega

/-- When no response within the window is terminal, the grok polling loop
uses its whole attempt budget and ends with the timeout error. -/
theorem grokPollAux_timeout (resp : Nat → GrokStatusResponse) :
    ∀ f i, (∀ j, j < f → grokIsTerminal (resp (i + j)) = false) →
      grokPollAux resp i f =
        (Except.error ("Video generation timed out"), f) := by
  intro f
  induction f with
  | zero => intro i _; rfl
  | succ r ih =>
    intro i hnt
    have h0 : grokIsTerminal (resp i) = false := by
      simpa using hnt 0 (Nat.succ_pos r)
    have hrest : ∀ j, j < r → grokIsTerminal (resp (i + 1 + j)) = false := by
      intro j hj
      have := hnt (j + 1) (by omega)
      have harg : i + (j + 1) = i + 1 + j := by omega
      rwa [harg] at this
    have hrec := ih (i + 1) hrest
    by_cases h1 : (resp i).httpOk = true
    · by_cases h2 : ((resp i).status == ("completed")) = true
      · cases h3 : (resp i).video_url with
        | some url =>
          exfalso
          rw [grokIsTerminal, h1, h2, h3] at h0
          simp at h0
        | none =>
          simp only [grokPollAux, h1, h2, h3, if_true]
          rw [hrec]
      · by_cases h3 : ((resp i).status == ("failed")) = true
        · exfalso
          rw [grokIsTerminal, h1, h3] at h0
          simp at h0
        · simp only [grokPollAux, h1, h2, h3, if_true]
          simp only [Bool.not_eq_true] at h2 h3
          simp only [h2, h3, Bool.false_eq_true, if_false]
          rw [hrec]
    · simp only [grokPollAux]
      simp only [Bool.not_eq_true] at h1
      simp only [h1, Bool.false_eq_true, if_false]
      rw [hrec]

/-- C7: the grok video path polls the status endpoint at most 60 times,
and when no terminal provider state occurs within those 60 attempts the
call terminates with the timeout error after exactly 60 polls. -/
theorem c7_grok_poll_bounded (resp : Nat → GrokStatusResponse) :
    (generateGrokVideoPoll resp).2 ≤ grokMaxAttempts ∧
    ((∀ i, i < grokMaxAttempts → grokIsTerminal (resp i) = false) →
      generateGrokVideoPoll resp =
        (Except.error ("Video generation timed out"), grokMaxAttempts)) := by
  refine ⟨grokPollAux_count_le resp grokMaxAttempts 0, fun h => ?_⟩
  exact grokPollAux_timeout resp grokMaxAttempts 0
    (fun j hj => by simpa using h j hj)

/-- C7 witness: a provider that keeps reporting processing makes the loop
time out after its 60 polls. -/
theorem c7_witness :
    generateGrokVideoPoll (fun _ =>
      { httpOk := true, status := "processing", video_url := none
        errMsg := "" }) =
      (Except.error ("Video generation timed out"), 60) := by
  have h := (c7_grok_poll_bounded (fun _ =>
    { httpOk := true, status := "processing", video_url := none
      errMsg := "" })).2 (fun i _ => by decide)
  exact h

end EComGen
